import Mathlib

/-
  Shallow embedding of the Rfam secondary-structure widget
  (SecondaryStructure component: fallback loader, availability probing,
  annotation pass, pan and zoom slot discipline, layer toggle cycle,
  loupe magnifier, download affordance).
-/

namespace RfamSS

/-- True when the first character list is an initial segment of the second. -/
def startsWithL : List Char → List Char → Bool
  | [], _ => true
  | _ :: _, [] => false
  | p :: ps, c :: cs => p == c && startsWithL ps cs

/-- True when the first character list occurs contiguously in the second. -/
def occursIn (pat : List Char) : List Char → Bool
  | [] => pat.isEmpty
  | c :: cs => startsWithL pat (c :: cs) || occursIn pat cs

/-- JavaScript string includes: true when the pattern occurs as a
contiguous substring, modelled on the underlying character lists. -/
def includes (s pat : String) : Bool := occursIn pat.data s.data

/-- An HTTP response as observed by loadImage: ok flag, body text, and the
optional content-type header. -/
structure Response where
  ok : Bool
  body : String
  contentType : Option String
deriving DecidableEq

/-- The fetch environment: for each rendering type, either a response or
none when the fetch throws (network failure). -/
def Env := String → Option Response

/-- Result record returned by loadImage on success. -/
structure LoadResult where
  content : String
  isAvailable : Bool
  isSvg : Bool
deriving DecidableEq

/-- Embedding of loadImage: fetch the type URL; non-ok or unrecognized
bodies fail; otherwise the body is returned tagged with availability
(SVG content, or the rchie type whose genuine format is PNG). -/
def loadImage (env : Env) (ty : String) : Option LoadResult :=
  match env ty with
  | none => none
  | some r =>
    if !r.ok then none
    else
      let content := r.body
      let contentType := r.contentType.getD ""
      let isSvg := includes content "<svg"
      let isPng := includes contentType "image/png"
      if !isSvg && !isPng then none
      else some { content := content, isAvailable := isSvg || ty == "rchie", isSvg := isSvg }

/-- The widget state fields touched by the loading state machine. -/
structure WidgetState where
  selectedImageType : String
  svgContent : String
  imageStatus : String
  errorMessage : String
  isImageNotAvailable : Bool
  availableTypes : List String
deriving DecidableEq

/-- The loop body of tryLoadImage: walk the candidate list in order,
stopping at the first successful load; also returns the list of types
actually fetched and whether a load succeeded. -/
def tryLoadGo (env : Env) : List String → WidgetState → WidgetState × List String × Bool
  | [], st =>
    ({ st with imageStatus := "error",
               errorMessage := "No secondary structure images available for this family." },
     [], false)
  | t :: ts, st =>
    match loadImage env t with
    | some r =>
      ({ st with svgContent := r.content, selectedImageType := t,
                 isImageNotAvailable := !r.isAvailable, imageStatus := "loaded" },
       [t], true)
    | none =>
      let rest := tryLoadGo env ts st
      (rest.1, t :: rest.2.1, rest.2.2)

/-- Embedding of tryLoadImage: set status loading and clear the
placeholder flag, then walk the candidates in the caller-supplied order. -/
def tryLoadImage (env : Env) (types : List String) (st : WidgetState) :
    WidgetState × List String × Bool :=
  tryLoadGo env types { st with imageStatus := "loading", isImageNotAvailable := false }

/-- The fixed eight-type dropdown list. -/
def DROPDOWN_IMAGE_TYPES : List String :=
  ["rscape", "cons", "fcbp", "cov", "ent", "maxcm", "norm", "rchie"]

/-- The configured types restricted to the dropdown list, in order:
the availability probe runs over exactly these. -/
def typesToCheckOf (imageTypes : List String) : List String :=
  imageTypes.filter (fun t => DROPDOWN_IMAGE_TYPES.contains t)

/-- The probed types reported available, in order. -/
def availableOf (probe : String → Bool) (imageTypes : List String) : List String :=
  (typesToCheckOf imageTypes).filter probe

/-- Embedding of initializeImages: filter the configured types to the
dropdown list, probe each for availability, then either run the fallback
loader over the available ones or enter the error state directly.
Returns (state, probed types, fetched types). -/
def initializeImages (probe : String → Bool) (env : Env) (imageTypes : List String)
    (st : WidgetState) : WidgetState × List String × List String :=
  if (availableOf probe imageTypes).length > 0 then
    ((tryLoadImage env (availableOf probe imageTypes)
        { st with availableTypes := availableOf probe imageTypes }).1,
     typesToCheckOf imageTypes,
     (tryLoadImage env (availableOf probe imageTypes)
        { st with availableTypes := availableOf probe imageTypes }).2.1)
  else
    ({ st with availableTypes := availableOf probe imageTypes, imageStatus := "error",
               errorMessage := "No secondary structure images available for this family." },
     typesToCheckOf imageTypes, [])

/-- The initial widget state on mount. -/
def initialState (imageTypes : List String) : WidgetState :=
  { selectedImageType :=
      match imageTypes with
      | [] => "rscape"
      | t :: _ => if t == "" then "rscape" else t,
    svgContent := "", imageStatus := "loading", errorMessage := "",
    isImageNotAvailable := false, availableTypes := [] }

/-- Embedding of the initial load effect: initializeImages runs only when
the entity reference is truthy and the configured list is non-empty. -/
def mount (probe : String → Bool) (env : Env) (familyAcc : String)
    (imageTypes : List String) : WidgetState × List String × List String :=
  if familyAcc != "" && imageTypes.length > 0 then
    initializeImages probe env imageTypes (initialState imageTypes)
  else
    (initialState imageTypes, [], [])

/-- The type selector options: available types restricted to the
dropdown list. -/
def dropdownTypes (st : WidgetState) : List String :=
  st.availableTypes.filter (fun t => DROPDOWN_IMAGE_TYPES.contains t)

/-- The four mutually exclusive render branches of the content area. -/
inductive DisplayState where
  | loading
  | error
  | notAvailable
  | content
deriving DecidableEq

/-- Projection of the widget state onto the rendered branch: the
not-available branch requires status loaded and the placeholder flag. -/
def displayState (st : WidgetState) : DisplayState :=
  if st.imageStatus == "loading" then DisplayState.loading
  else if st.imageStatus == "error" then DisplayState.error
  else if st.isImageNotAvailable then DisplayState.notAvailable
  else DisplayState.content

/-- Embedding of handleImageTypeChange: a no-op when the type is already
selected; otherwise enter loading, switch the selected type, clear the
placeholder flag, fetch the new type once, and land in loaded or error. -/
def handleImageTypeChange (env : Env) (ty : String) (st : WidgetState) : WidgetState :=
  if ty == st.selectedImageType then st
  else
    let st1 := { st with imageStatus := "loading", selectedImageType := ty,
                         isImageNotAvailable := false }
    match loadImage env ty with
    | some r =>
      { st1 with svgContent := r.content, isImageNotAvailable := !r.isAvailable,
                 imageStatus := "loaded" }
    | none =>
      { st1 with imageStatus := "error",
                 errorMessage := "Failed to load " ++ ty ++ " image." }

/- ===== Annotation pass (processRscapeSvg, path loop) ===== -/

/-- The significant basepair fill colour from RSCAPE_COLORS. -/
def significantColor : String := "#31a354"

/-- A path element as seen by the annotation pass: its fill and
stroke-width attributes, absent attributes as none. -/
structure SvgPath where
  fill : Option String
  strokeWidth : Option String
deriving DecidableEq

/-- The aggregate counts published by processRscapeSvg. -/
structure RscapeStats where
  basepairs : Nat
  significantBasepairs : Nat
deriving DecidableEq

/-- The path loop of processRscapeSvg: significantBasepairs increments on
the significant fill, basepairs increments on stroke-width 1.44, each
path contributing independently to either counter. -/
def processPathsGo : List SvgPath → Nat → Nat → Nat × Nat
  | [], bp, sig => (bp, sig)
  | p :: ps, bp, sig =>
    let sig2 := if p.fill == some significantColor then sig + 1 else sig
    let bp2 := if p.strokeWidth == some "1.44" then bp + 1 else bp
    processPathsGo ps bp2 sig2

/-- Embedding of the statistics part of processRscapeSvg: both counters
start from zero on every invocation. -/
def processRscapeSvg (paths : List SvgPath) : RscapeStats :=
  let r := processPathsGo paths 0 0
  { basepairs := r.1, significantBasepairs := r.2 }

/-- One annotation run as wired by the effect: setStats overwrites the
previous stats value, so the published result ignores it. -/
def runAnnotationPass (paths : List SvgPath) (_prevStats : Option RscapeStats) : RscapeStats :=
  processRscapeSvg paths

/-- Statistics as the spec sentence words them, for refinement comparison:
significantBasepairs as the subset of the pairing lines that also carry
the significant fill. -/
def specWordedStats (paths : List SvgPath) : RscapeStats :=
  { basepairs := paths.countP (fun p => p.strokeWidth == some "1.44"),
    significantBasepairs :=
      paths.countP (fun p => p.strokeWidth == some "1.44" && p.fill == some significantColor) }

/- ===== Pan and zoom slot discipline ===== -/

/-- One pan and zoom slot: the ref cell plus a ledger of instances ever
created for it and of instances destroyed. -/
structure PZSlot where
  current : Option Nat
  created : List Nat
  destroyed : List Nat
deriving DecidableEq

/-- Destroy and null the bound instance, as both initializePanZoom and
handleImageTypeChange do before anything else. -/
def destroyCurrent (s : PZSlot) : PZSlot :=
  match s.current with
  | some i => { s with current := none, destroyed := i :: s.destroyed }
  | none => s

/-- Embedding of initializePanZoom: destroy any prior instance, then bind
a fresh instance when the diagram root is present and construction
succeeds; on failure the slot stays empty. -/
def initializePanZoom (s : PZSlot) (svgFound : Bool) (initOk : Bool) (fresh : Nat) : PZSlot :=
  let s1 := destroyCurrent s
  if svgFound then
    if initOk then { s1 with current := some fresh, created := fresh :: s1.created }
    else s1
  else s1

/-- Instances created for the slot and not destroyed. -/
def live (s : PZSlot) : List Nat :=
  s.created.filter (fun i => decide (i ∉ s.destroyed))

/-- Slot invariant: every live instance is the bound one, the bound one
was created, and instance identities are distinct. -/
def SlotInv (s : PZSlot) : Prop :=
  (∀ i ∈ live s, s.current = some i) ∧
  (∀ i, s.current = some i → i ∈ s.created) ∧
  s.created.Nodup

/-- A type switch on the main slot: handleImageTypeChange destroys the
bound instance, then the post-load effect may bind a fresh one via
initializePanZoom. -/
def switchType (s : PZSlot) (reinit svgFound initOk : Bool) (fresh : Nat) : PZSlot :=
  let s1 := destroyCurrent s
  if reinit then initializePanZoom s1 svgFound initOk fresh else s1

/- ===== Layer toggle cycle (handleSvgClick) ===== -/

/-- The three named sub-layers: none when absent from the diagram, some v
when present with visibility v (true is visible). -/
structure Layers where
  seq : Option Bool
  outline : Option Bool
  pairs : Option Bool
deriving DecidableEq

/-- Set the visibility of a layer when it is present. -/
def setVis (l : Option Bool) (v : Bool) : Option Bool := l.map (fun _ => v)

/-- Toggle state: the phase counter plus the current layer visibilities. -/
structure ToggleSt where
  phase : Nat
  layers : Layers
deriving DecidableEq

/-- Embedding of handleSvgClick: a no-op for the rscape and rchie types,
when the diagram root is absent, or when all three sub-layers are absent;
otherwise advance the phase 1 to 2 to 3 back to 1 and set each present
sub-layer per phase. -/
def handleSvgClick (selected : String) (hasSvg : Bool) (st : ToggleSt) : ToggleSt :=
  if selected == "rscape" || selected == "rchie" then st
  else if !hasSvg then st
  else if st.layers.seq == none && st.layers.outline == none && st.layers.pairs == none then st
  else
    let newState := if st.phase == 3 then 1 else st.phase + 1
    let L := st.layers
    let L2 : Layers :=
      if newState == 1 then
        { seq := setVis L.seq true, outline := setVis L.outline true, pairs := setVis L.pairs true }
      else if newState == 2 then
        { seq := setVis L.seq false, outline := setVis L.outline true, pairs := setVis L.pairs true }
      else
        { seq := setVis L.seq true, outline := setVis L.outline false, pairs := setVis L.pairs false }
    { phase := newState, layers := L2 }

/-- The effect that resets the toggle phase whenever the selected type
changes: setSvgToggleState 1. -/
def resetToggleOnTypeChange (st : ToggleSt) : ToggleSt :=
  { st with phase := 1 }

/- ===== Loupe magnifier (handleRchieMouseMove and loupe rendering) ===== -/

/-- The loupe state published by handleRchieMouseMove. -/
structure LoupePos where
  x : Int
  y : Int
  bgX : Int
  bgY : Int
  visible : Bool
deriving DecidableEq

/-- Embedding of handleRchieMouseMove: a no-op unless the rchie type is
selected and the image ref is set; otherwise record the pointer position
and its local coordinate within the image bounding box. -/
def handleRchieMouseMove (selected : String) (hasRef : Bool)
    (clientX clientY rectLeft rectTop : Int) (prev : LoupePos) : LoupePos :=
  if selected != "rchie" || !hasRef then prev
  else { x := clientX, y := clientY, bgX := clientX - rectLeft, bgY := clientY - rectTop,
         visible := true }

/-- The horizontal background offset computed in the loupe style:
bgX times 2 minus 100. -/
def loupeBgOffsetX (p : LoupePos) : Int := p.bgX * 2 - 100

/-- The vertical background offset computed in the loupe style:
bgY times 2 minus 100. -/
def loupeBgOffsetY (p : LoupePos) : Int := p.bgY * 2 - 100

/-- The loupe lens position: 100 left of and above the pointer. -/
def loupeLensPos (p : LoupePos) : Int × Int := (p.x - 100, p.y - 100)

/- ===== Download affordance ===== -/

/-- The anchor element built by downloadImage: blob MIME type and the
download attribute (none models a null assignment). -/
structure DownloadLink where
  mime : String
  filename : Option String
deriving DecidableEq

/-- Embedding of downloadImage in the full widget: vector content as an
svg file, raster content as a png file, both names keyed by the entity
reference and the selected type. -/
def downloadImage (svgContent familyAcc selectedImageType : String) : Option DownloadLink :=
  if svgContent == "" then none
  else if includes svgContent "<svg" then
    some { mime := "image/svg+xml",
           filename := some (familyAcc ++ "_" ++ selectedImageType ++ "_structure.svg") }
  else
    some { mime := "image/png",
           filename := some (familyAcc ++ "_" ++ selectedImageType ++ "_structure.png") }

/-- Embedding of downloadImage in the simple component variant of the
repository: the raster branch assigns null to the download attribute
instead of a keyed png filename. -/
def downloadImageSimple (svgContent familyAcc selectedImageType : String) : Option DownloadLink :=
  if svgContent == "" then none
  else if includes svgContent "<svg" then
    some { mime := "image/svg+xml",
           filename := some (familyAcc ++ "_" ++ selectedImageType ++ "_structure.svg") }
  else
    some { mime := "image/png", filename := none }

/- ===== Concrete fixtures used by witnesses ===== -/

/-- Fetch environment where only the cons type returns a genuine SVG. -/
def envW : Env := fun t =>
  if t == "cons" then
    some { ok := true, body := "<svg></svg>", contentType := some "image/svg+xml" }
  else none

/-- Fetch environment where every type returns the raster sentinel. -/
def envPngW : Env := fun _ =>
  some { ok := true, body := "PNGDATA", contentType := some "image/png" }

/-- Fetch environment where every fetch throws. -/
def envFailW : Env := fun _ => none

/-- Fetch environment where every type returns a genuine SVG. -/
def envSvgW : Env := fun _ =>
  some { ok := true, body := "<svg></svg>", contentType := some "image/svg+xml" }

/-- A probe reporting every type available. -/
def probeTrueW : String → Bool := fun _ => true

/-- A probe reporting every type unavailable. -/
def probeFalseW : String → Bool := fun _ => false

/-- Annotation fixture: ten pairing-line paths, three of which carry the
significant fill. -/
def fixturePaths : List SvgPath :=
  [ { fill := some significantColor, strokeWidth := some "1.44" },
    { fill := some significantColor, strokeWidth := some "1.44" },
    { fill := some significantColor, strokeWidth := some "1.44" },
    { fill := some "#000000", strokeWidth := some "1.44" },
    { fill := some "#000000", strokeWidth := some "1.44" },
    { fill := some "#000000", strokeWidth := some "1.44" },
    { fill := some "#000000", strokeWidth := some "1.44" },
    { fill := some "#000000", strokeWidth := some "1.44" },
    { fill := some "#000000", strokeWidth := some "1.44" },
    { fill := some "#000000", strokeWidth := some "1.44" } ]

/-- A path carrying the significant fill without the pairing-line
stroke-width marker. -/
def strayPath : SvgPath := { fill := some significantColor, strokeWidth := some "2.0" }

/-- A pan and zoom slot with one live bound instance. -/
def slotW : PZSlot := { current := some 0, created := [0], destroyed := [] }

/- ===================== Theorems ===================== -/

/-- Helper: a successful load of an ok response whose body is recognized
as an image, with the availability tag computed from the body and type. -/
theorem loadImage_recognized (env : Env) (t : String) (resp : Response)
    (ht : env t = some resp) (hok : resp.ok = true)
    (hrec : includes resp.body "<svg" = true ∨
            includes (resp.contentType.getD "") "image/png" = true) :
    loadImage env t =
      some { content := resp.body,
             isAvailable := includes resp.body "<svg" || t == "rchie",
             isSvg := includes resp.body "<svg" } := by
  unfold loadImage
  rw [ht]
  rcases hrec with h | h
  · simp [hok, h]
  · simp [hok, h]

/-- Helper: the fallback loop stops at the first successful candidate,
fetching exactly the failing ones before it and the successful one. -/
theorem tryLoadGo_first_success (env : Env) (t : String) (r : LoadResult)
    (post : List String) (st : WidgetState) :
    ∀ pre : List String, (∀ u ∈ pre, loadImage env u = none) →
      loadImage env t = some r →
      tryLoadGo env (pre ++ t :: post) st =
        ({ st with svgContent := r.content, selectedImageType := t,
                   isImageNotAvailable := !r.isAvailable, imageStatus := "loaded" },
         pre ++ [t], true) := by
  intro pre
  induction pre with
  | nil =>
    intro _ ht
    simp [tryLoadGo, ht]
  | cons u us ih =>
    intro hpre ht
    have hu : loadImage env u = none := hpre u (List.mem_cons_self u us)
    have hus : ∀ v ∈ us, loadImage env v = none :=
      fun v hv => hpre v (List.mem_cons_of_mem u hv)
    simp [tryLoadGo, hu, ih hus ht]

/-- Claim C1: for an ordered non-empty candidate list, the fallback loader
displays the content of the first candidate whose fetch succeeds and whose
body is a recognized image (vector root tag or raster content type); the
fetch log is exactly the failing earlier candidates in order followed by
the success, so later candidates are never fetched and no reordering
occurs. -/
theorem claim_C1 (env : Env) (pre post : List String) (t : String) (resp : Response)
    (st : WidgetState)
    (hpre : ∀ u ∈ pre, loadImage env u = none)
    (ht : env t = some resp) (hok : resp.ok = true)
    (hrec : includes resp.body "<svg" = true ∨
            includes (resp.contentType.getD "") "image/png" = true) :
    tryLoadImage env (pre ++ t :: post) st =
      ({ st with svgContent := resp.body, selectedImageType := t,
                 isImageNotAvailable := !(includes resp.body "<svg" || t == "rchie"),
                 imageStatus := "loaded" },
       pre ++ [t], true) := by
  unfold tryLoadImage
  rw [tryLoadGo_first_success env t _ post _ pre hpre
        (loadImage_recognized env t resp ht hok hrec)]

/-- Witness for claim C1 at a concrete environment: the first candidate
fails, the second succeeds and is displayed, the third is never fetched. -/
theorem claim_C1_witness :
    tryLoadImage envW ["rscape", "cons", "norm"] (initialState ["rscape", "cons", "norm"]) =
      ({ initialState ["rscape", "cons", "norm"] with
           svgContent := "<svg></svg>", selectedImageType := "cons",
           isImageNotAvailable := false, imageStatus := "loaded" },
       ["rscape", "cons"], true) := by
  have h := claim_C1 envW ["rscape"] ["norm"] "cons"
      { ok := true, body := "<svg></svg>", contentType := some "image/svg+xml" }
      (initialState ["rscape", "cons", "norm"])
      (by decide) (by decide) (by decide) (Or.inl (by decide))
  have hsvg : includes "<svg></svg>" "<svg" = true := by decide
  simpa [hsvg] using h

/-- Claim C2: a successful fetch with a raster content type and no vector
root tag is a placeholder for every type other than rchie, surfaced as the
not-available display state, not the error state; for rchie the same
response is genuine content and never a placeholder. -/
theorem claim_C2 (env : Env) (ty : String) (resp : Response) (st : WidgetState)
    (h1 : env ty = some resp) (h2 : resp.ok = true)
    (h3 : includes resp.body "<svg" = false)
    (h4 : includes (resp.contentType.getD "") "image/png" = true) :
    (ty ≠ "rchie" →
       loadImage env ty =
         some { content := resp.body, isAvailable := false, isSvg := false } ∧
       (tryLoadImage env [ty] st).1.isImageNotAvailable = true ∧
       displayState (tryLoadImage env [ty] st).1 = DisplayState.notAvailable) ∧
    (ty = "rchie" →
       loadImage env ty =
         some { content := resp.body, isAvailable := true, isSvg := false } ∧
       (tryLoadImage env [ty] st).1.isImageNotAvailable = false ∧
       displayState (tryLoadImage env [ty] st).1 = DisplayState.content) := by
  have hl := loadImage_recognized env ty resp h1 h2 (Or.inr h4)
  rw [h3] at hl
  constructor
  · intro hne
    have hbe : (ty == "rchie") = false := by
      simpa using hne
    rw [hbe] at hl
    simp only [Bool.false_or] at hl
    refine ⟨hl, ?_, ?_⟩
    · simp [tryLoadImage, tryLoadGo, hl]
    · simp [tryLoadImage, tryLoadGo, hl, displayState]
  · intro heq
    subst heq
    simp only [Bool.false_or] at hl
    norm_num at hl
    refine ⟨hl, ?_, ?_⟩
    · simp [tryLoadImage, tryLoadGo, hl]
    · simp [tryLoadImage, tryLoadGo, hl, displayState]

/-- Witness for claim C2 at a concrete raster response, in both the
non-rchie and the rchie directions. -/
theorem claim_C2_witness :
    ((tryLoadImage envPngW ["cons"] (initialState ["cons"])).1.isImageNotAvailable = true ∧
     displayState (tryLoadImage envPngW ["cons"] (initialState ["cons"])).1 =
       DisplayState.notAvailable) ∧
    ((tryLoadImage envPngW ["rchie"] (initialState ["rchie"])).1.isImageNotAvailable = false ∧
     displayState (tryLoadImage envPngW ["rchie"] (initialState ["rchie"])).1 =
       DisplayState.content) := by
  have h1 := claim_C2 envPngW "cons"
      { ok := true, body := "PNGDATA", contentType := some "image/png" }
      (initialState ["cons"]) (by decide) (by decide) (by decide) (by decide)
  have h2 := claim_C2 envPngW "rchie"
      { ok := true, body := "PNGDATA", contentType := some "image/png" }
      (initialState ["rchie"]) (by decide) (by decide) (by decide) (by decide)
  exact ⟨⟨(h1.1 (by decide)).2.1, (h1.1 (by decide)).2.2⟩,
         ⟨(h2.2 rfl).2.1, (h2.2 rfl).2.2⟩⟩

/-- Helper: when every candidate fails, the fallback loop fetches each
candidate exactly once in order and ends in the error state with the
fixed message. -/
theorem tryLoadGo_all_fail (env : Env) :
    ∀ (types : List String) (st : WidgetState),
      (∀ u ∈ types, loadImage env u = none) →
      tryLoadGo env types st =
        ({ st with imageStatus := "error",
                   errorMessage := "No secondary structure images available for this family." },
         types, false) := by
  intro types
  induction types with
  | nil =>
    intro st _
    simp [tryLoadGo]
  | cons u us ih =>
    intro st h
    have hu : loadImage env u = none := h u (List.mem_cons_self u us)
    have hus : ∀ v ∈ us, loadImage env v = none :=
      fun v hv => h v (List.mem_cons_of_mem u hv)
    simp [tryLoadGo, hu, ih st hus]

/-- Claim C3: when every configured dropdown candidate probes unavailable,
initialization ends in the error status with the fixed message and no
content fetch is issued; and when content fetches fail for every available
candidate, the loader ends in the same error status with the same fixed
message after fetching each candidate exactly once, with no retry. -/
theorem claim_C3 (probe : String → Bool) (env : Env) (familyAcc : String)
    (imageTypes types : List String) (st0 : WidgetState)
    (hacc : familyAcc ≠ "") (hne : imageTypes ≠ [])
    (hprobe : ∀ t ∈ imageTypes.filter (fun t => DROPDOWN_IMAGE_TYPES.contains t),
        probe t = false)
    (hfail : ∀ t ∈ types, loadImage env t = none) :
    ((mount probe env familyAcc imageTypes).1.imageStatus = "error" ∧
     (mount probe env familyAcc imageTypes).1.errorMessage =
       "No secondary structure images available for this family." ∧
     (mount probe env familyAcc imageTypes).2.2 = []) ∧
    ((tryLoadImage env types st0).1.imageStatus = "error" ∧
     (tryLoadImage env types st0).1.errorMessage =
       "No secondary structure images available for this family." ∧
     (tryLoadImage env types st0).2.1 = types ∧
     (tryLoadImage env types st0).2.2 = false) := by
  constructor
  · have hguard : (familyAcc != "" && decide (imageTypes.length > 0)) = true := by
      simp [hacc, List.length_pos, hne]
    have havail : availableOf probe imageTypes = [] := by
      unfold availableOf typesToCheckOf
      rw [List.filter_eq_nil_iff]
      intro a ha
      simp [hprobe a ha]
    simp [mount, hguard, initializeImages, havail]
  · have h := tryLoadGo_all_fail env types
      { st0 with imageStatus := "loading", isImageNotAvailable := false } hfail
    simp [tryLoadImage, h]

/-- Witness for claim C3: all probes fail at mount, and all fetches fail
in the fallback loop, at concrete inputs. -/
theorem claim_C3_witness :
    ((mount probeFalseW envFailW "RF00001" ["rscape", "cons"]).1.imageStatus = "error" ∧
     (mount probeFalseW envFailW "RF00001" ["rscape", "cons"]).1.errorMessage =
       "No secondary structure images available for this family." ∧
     (mount probeFalseW envFailW "RF00001" ["rscape", "cons"]).2.2 = []) ∧
    ((tryLoadImage envFailW ["rscape", "cons"] (initialState ["rscape", "cons"])).1.imageStatus
        = "error" ∧
     (tryLoadImage envFailW ["rscape", "cons"] (initialState ["rscape", "cons"])).1.errorMessage
        = "No secondary structure images available for this family." ∧
     (tryLoadImage envFailW ["rscape", "cons"] (initialState ["rscape", "cons"])).2.1
        = ["rscape", "cons"] ∧
     (tryLoadImage envFailW ["rscape", "cons"] (initialState ["rscape", "cons"])).2.2
        = false) := by
  exact claim_C3 probeFalseW envFailW "RF00001" ["rscape", "cons"] ["rscape", "cons"]
    (initialState ["rscape", "cons"]) (by decide) (by decide) (by decide) (by decide)

/-- Helper: the path loop adds, to its accumulators, the count of
pairing-line paths and the count of significant-fill paths, the two
conditions tested independently. -/
theorem processPathsGo_eq (paths : List SvgPath) :
    ∀ bp sig, processPathsGo paths bp sig =
      (bp + paths.countP (fun p => p.strokeWidth == some "1.44"),
       sig + paths.countP (fun p => p.fill == some significantColor)) := by
  induction paths with
  | nil => intro bp sig; simp [processPathsGo]
  | cons p ps ih =>
    intro bp sig
    simp only [processPathsGo, ih, List.countP_cons, Prod.mk.injEq]
    constructor <;> by_cases h1 : (p.strokeWidth == some "1.44") = true <;>
      by_cases h2 : (p.fill == some significantColor) = true <;>
        simp [h1, h2] <;> omega

/-- Counterexample to claim C4 as stated: on a path carrying the
significant fill but not the pairing-line stroke-width, the annotation
pass counts it as a significant basepair even though it is not among the
pairing lines, so significantBasepairs is not the subset count the claim
describes. -/
theorem claim_C4_counterexample :
    processRscapeSvg [strayPath] ≠ specWordedStats [strayPath] ∧
    processRscapeSvg [strayPath] = { basepairs := 0, significantBasepairs := 1 } ∧
    specWordedStats [strayPath] = { basepairs := 0, significantBasepairs := 0 } := by
  refine ⟨?_, ?_, ?_⟩ <;> decide

/-- Claim C4 as amended: the annotation pass counts basepairs as the
pairing-line paths (stroke-width 1.44) and significantBasepairs as all
paths carrying the significant fill, whether or not they are pairing
lines; on a fixture with ten pairing-line paths of which exactly three
carry the significant fill it yields basepairs ten and three significant,
and the published result ignores any previously published stats, so a
re-run against a freshly mounted copy is never cumulative. -/
theorem claim_C4 (paths : List SvgPath) (prev : Option RscapeStats)
    (hbp : paths.countP (fun p => p.strokeWidth == some "1.44") = 10)
    (hsig : paths.countP (fun p => p.fill == some significantColor) = 3) :
    runAnnotationPass paths prev = { basepairs := 10, significantBasepairs := 3 } ∧
    runAnnotationPass paths prev = runAnnotationPass paths none ∧
    processRscapeSvg paths =
      { basepairs := paths.countP (fun p => p.strokeWidth == some "1.44"),
        significantBasepairs := paths.countP (fun p => p.fill == some significantColor) } := by
  have h := processPathsGo_eq paths 0 0
  refine ⟨?_, rfl, ?_⟩
  · unfold runAnnotationPass processRscapeSvg
    rw [h]
    simp [hbp, hsig]
  · unfold processRscapeSvg
    rw [h]
    simp

/-- Witness for claim C4 on the concrete fixture, including a re-run with
previously published stats giving the same counts. -/
theorem claim_C4_witness :
    runAnnotationPass fixturePaths (some { basepairs := 10, significantBasepairs := 3 }) =
      { basepairs := 10, significantBasepairs := 3 } ∧
    runAnnotationPass fixturePaths (some { basepairs := 10, significantBasepairs := 3 }) =
      runAnnotationPass fixturePaths none := by
  have h := claim_C4 fixturePaths (some { basepairs := 10, significantBasepairs := 3 })
    (by decide) (by decide)
  exact ⟨h.1, h.2.1⟩

/-- Helper: destroying the bound instance leaves the slot unbound. -/
theorem destroyCurrent_current (s : PZSlot) : (destroyCurrent s).current = none := by
  cases h : s.current <;> simp [destroyCurrent, h]

/-- Helper: destroying the bound instance does not touch the creation
ledger. -/
theorem destroyCurrent_created (s : PZSlot) : (destroyCurrent s).created = s.created := by
  cases h : s.current <;> simp [destroyCurrent, h]

/-- Helper: membership in the live instances of a slot. -/
theorem mem_live_iff (s : PZSlot) (j : Nat) :
    j ∈ live s ↔ j ∈ s.created ∧ j ∉ s.destroyed := by
  simp [live]

/-- Helper: the slot invariant survives destroying the bound instance. -/
theorem slotInv_destroyCurrent (s : PZSlot) (h : SlotInv s) : SlotInv (destroyCurrent s) := by
  obtain ⟨h1, h2, h3⟩ := h
  cases hc : s.current with
  | none =>
    have he : destroyCurrent s = s := by simp [destroyCurrent, hc]
    rw [he]
    exact ⟨h1, h2, h3⟩
  | some i =>
    have hd : destroyCurrent s = { s with current := none, destroyed := i :: s.destroyed } := by
      simp [destroyCurrent, hc]
    rw [hd]
    refine ⟨?_, ?_, h3⟩
    · intro j hj
      rw [mem_live_iff] at hj
      obtain ⟨hjc, hjd⟩ := hj
      exfalso
      have hjd2 : j ∉ s.destroyed := fun hx => hjd (List.mem_cons_of_mem i hx)
      have hji : j ≠ i := fun hx => hjd (hx ▸ List.mem_cons_self i s.destroyed)
      have hcj : s.current = some j := h1 j ((mem_live_iff s j).mpr ⟨hjc, hjd2⟩)
      rw [hc] at hcj
      exact hji (Option.some.inj hcj).symm
    · intro j hj
      exact Option.noConfusion hj

/-- Helper: the slot invariant survives initializePanZoom when the fresh
instance identity is new. -/
theorem slotInv_initializePanZoom (s : PZSlot) (sv ok : Bool) (fresh : Nat)
    (h : SlotInv s) (hf : fresh ∉ s.created) :
    SlotInv (initializePanZoom s sv ok fresh) := by
  have h1 := slotInv_destroyCurrent s h
  have hcur := destroyCurrent_current s
  have hcr := destroyCurrent_created s
  unfold initializePanZoom
  cases sv with
  | false => simpa using h1
  | true =>
    cases ok with
    | false => simpa using h1
    | true =>
      simp only [if_pos]
      obtain ⟨p1, p2, p3⟩ := h1
      refine ⟨?_, ?_, ?_⟩
      · intro j hj
        rw [mem_live_iff] at hj
        obtain ⟨hjc, hjd⟩ := hj
        rcases List.mem_cons.mp hjc with hje | hjc2
        · simp [hje]
        · exfalso
          have hcj : (destroyCurrent s).current = some j :=
            p1 j ((mem_live_iff (destroyCurrent s) j).mpr ⟨hjc2, hjd⟩)
          rw [hcur] at hcj
          exact Option.noConfusion hcj
      · intro j hj
        have hje : fresh = j := Option.some.inj hj
        simp [← hje]
      · exact List.nodup_cons.mpr ⟨by rw [hcr]; exact hf, p3⟩

/-- Helper: the slot invariant survives a type switch. -/
theorem slotInv_switchType (s : PZSlot) (r sv ok : Bool) (fresh : Nat)
    (h : SlotInv s) (hf : fresh ∉ s.created) :
    SlotInv (switchType s r sv ok fresh) := by
  unfold switchType
  cases r with
  | false => simpa using slotInv_destroyCurrent s h
  | true =>
    simp only [if_pos]
    exact slotInv_initializePanZoom (destroyCurrent s) sv ok fresh
      (slotInv_destroyCurrent s h) (by rwa [destroyCurrent_created])

/-- Helper: under the slot invariant at most one live instance is bound. -/
theorem live_length_le_one (s : PZSlot) (h : SlotInv s) : (live s).length ≤ 1 := by
  obtain ⟨h1, _, h3⟩ := h
  cases hl : live s with
  | nil => simp
  | cons a t =>
    cases t with
    | nil => simp
    | cons b t2 =>
      exfalso
      have ha : a ∈ live s := by rw [hl]; exact List.mem_cons_self a (b :: t2)
      have hb : b ∈ live s := by rw [hl]; simp
      have hab : a = b := Option.some.inj ((h1 a ha).symm.trans (h1 b hb))
      have hnd : (live s).Nodup := List.Nodup.filter _ h3
      rw [hl] at hnd
      rcases List.nodup_cons.mp hnd with ⟨hna, _⟩
      apply hna
      rw [hab]
      exact List.mem_cons_self b t2

/-- Helper: initializePanZoom never removes anything from the destruction
ledger produced by its initial destroy. -/
theorem initializePanZoom_destroyed (s : PZSlot) (sv ok : Bool) (fresh : Nat) :
    (initializePanZoom s sv ok fresh).destroyed = (destroyCurrent s).destroyed := by
  unfold initializePanZoom
  cases sv <;> cases ok <;> simp

/-- Helper: after initializePanZoom the slot is either unbound or bound to
the fresh instance. -/
theorem initializePanZoom_current (s : PZSlot) (sv ok : Bool) (fresh : Nat) :
    (initializePanZoom s sv ok fresh).current = none ∨
    (initializePanZoom s sv ok fresh).current = some fresh := by
  unfold initializePanZoom
  cases sv <;> cases ok <;> simp [destroyCurrent_current]

/-- Claim C5: binding a new pan and zoom instance first destroys and
unbinds the prior instance for the slot, and after two successive type
switches the slot invariant holds and at most one live instance is bound
to the main slot. -/
theorem claim_C5 (s : PZSlot) (i fresh1 fresh2 : Nat) (r1 sv1 ok1 r2 sv2 ok2 : Bool)
    (hinv : SlotInv s) (hcur : s.current = some i)
    (hf1 : fresh1 ∉ s.created)
    (hf2 : fresh2 ∉ (switchType s r1 sv1 ok1 fresh1).created) :
    (i ∈ (initializePanZoom s sv1 ok1 fresh1).destroyed ∧
     (initializePanZoom s sv1 ok1 fresh1).current ≠ some i) ∧
    SlotInv (switchType (switchType s r1 sv1 ok1 fresh1) r2 sv2 ok2 fresh2) ∧
    (live (switchType (switchType s r1 sv1 ok1 fresh1) r2 sv2 ok2 fresh2)).length ≤ 1 := by
  have hinv1 : SlotInv (switchType s r1 sv1 ok1 fresh1) :=
    slotInv_switchType s r1 sv1 ok1 fresh1 hinv hf1
  have hinv2 : SlotInv (switchType (switchType s r1 sv1 ok1 fresh1) r2 sv2 ok2 fresh2) :=
    slotInv_switchType _ r2 sv2 ok2 fresh2 hinv1 hf2
  refine ⟨⟨?_, ?_⟩, hinv2, live_length_le_one _ hinv2⟩
  · rw [initializePanZoom_destroyed]
    simp [destroyCurrent, hcur]
  · intro hx
    rcases initializePanZoom_current s sv1 ok1 fresh1 with hn | hs
    · rw [hn] at hx
      exact Option.noConfusion hx
    · rw [hs] at hx
      have : fresh1 = i := Option.some.inj hx
      exact hf1 (this ▸ hinv.2.1 i hcur)

/-- Witness for claim C5 at a concrete slot with one bound instance and
two successive switches with fresh instance identities. -/
theorem claim_C5_witness :
    (0 ∈ (initializePanZoom slotW true true 1).destroyed ∧
     (initializePanZoom slotW true true 1).current ≠ some 0) ∧
    (live (switchType (switchType slotW true true true 1) true true true 2)).length ≤ 1 := by
  have hinv : SlotInv slotW := by
    refine ⟨?_, ?_, ?_⟩
    · intro j hj
      have : j = 0 := by simpa [live, slotW] using hj
      simp [slotW, this]
    · intro j hj
      have : j = 0 := by simpa [slotW] using hj.symm
      simp [slotW, this]
    · simp [slotW]
  have h := claim_C5 slotW 0 1 2 true true true true true true hinv rfl
    (by decide) (by decide)
  exact ⟨h.1, h.2.2⟩

/-- Claim C6: for a selected type that is neither rscape nor rchie, with
the diagram present and its three named sub-layers exposed, a click
advances the phase along all-visible, structure-only (sequence hidden,
outline and pairs visible), sequence-only (sequence visible, outline and
pairs hidden), back to all-visible, so three consecutive clicks return to
all-visible; and a type change resets the phase to all-visible. -/
theorem claim_C6 (selected : String)
    (hs1 : selected ≠ "rscape") (hs2 : selected ≠ "rchie") :
    (∀ a b c : Bool,
      handleSvgClick selected true
          { phase := 1, layers := { seq := some a, outline := some b, pairs := some c } } =
        { phase := 2, layers := { seq := some false, outline := some true, pairs := some true } } ∧
      handleSvgClick selected true
          { phase := 2, layers := { seq := some a, outline := some b, pairs := some c } } =
        { phase := 3, layers := { seq := some true, outline := some false, pairs := some false } } ∧
      handleSvgClick selected true
          { phase := 3, layers := { seq := some a, outline := some b, pairs := some c } } =
        { phase := 1, layers := { seq := some true, outline := some true, pairs := some true } }) ∧
    handleSvgClick selected true (handleSvgClick selected true (handleSvgClick selected true
        { phase := 1, layers := { seq := some true, outline := some true, pairs := some true } })) =
      { phase := 1, layers := { seq := some true, outline := some true, pairs := some true } } ∧
    (∀ st : ToggleSt, (resetToggleOnTypeChange st).phase = 1) := by
  have hbe1 : (selected == "rscape") = false := by simpa using hs1
  have hbe2 : (selected == "rchie") = false := by simpa using hs2
  refine ⟨?_, ?_, fun st => rfl⟩
  · intro a b c
    refine ⟨?_, ?_, ?_⟩ <;> simp [handleSvgClick, hbe1, hbe2, setVis]
  · simp [handleSvgClick, hbe1, hbe2, setVis]

/-- Witness for claim C6 at the cons type: the three concrete phase
steps, the three-click round trip, and the reset. -/
theorem claim_C6_witness :
    (handleSvgClick "cons" true
        { phase := 1, layers := { seq := some true, outline := some true, pairs := some true } } =
      { phase := 2, layers := { seq := some false, outline := some true, pairs := some true } }) ∧
    (handleSvgClick "cons" true (handleSvgClick "cons" true (handleSvgClick "cons" true
        { phase := 1, layers := { seq := some true, outline := some true, pairs := some true } })) =
      { phase := 1, layers := { seq := some true, outline := some true, pairs := some true } }) ∧
    (resetToggleOnTypeChange
        { phase := 3, layers := { seq := some true, outline := some false, pairs := some false } }).phase
      = 1 := by
  have h := claim_C6 "cons" (by decide) (by decide)
  exact ⟨(h.1 true true true).1, h.2.1,
         h.2.2 { phase := 3, layers := { seq := some true, outline := some false, pairs := some false } }⟩

/-- Claim C7: while the magnifier is active over the rchie raster, for
every pointer position the computed background offset is two times the
local coordinate within the image bounding box minus the fixed lens
radius of one hundred, in each axis, and the lens is centred on the
pointer. -/
theorem claim_C7 (clientX clientY rectLeft rectTop : Int) (prev : LoupePos) :
    loupeBgOffsetX (handleRchieMouseMove "rchie" true clientX clientY rectLeft rectTop prev) =
      2 * (clientX - rectLeft) - 100 ∧
    loupeBgOffsetY (handleRchieMouseMove "rchie" true clientX clientY rectLeft rectTop prev) =
      2 * (clientY - rectTop) - 100 ∧
    (handleRchieMouseMove "rchie" true clientX clientY rectLeft rectTop prev).visible = true ∧
    loupeLensPos (handleRchieMouseMove "rchie" true clientX clientY rectLeft rectTop prev) =
      (clientX - 100, clientY - 100) := by
  have hc : (("rchie" : String) != "rchie") = false := by decide
  refine ⟨?_, ?_, ?_, ?_⟩ <;>
    simp [handleRchieMouseMove, hc, loupeBgOffsetX, loupeBgOffsetY, loupeLensPos] <;> ring

/-- Claim C8 evaluation: on raster content the full widget downloads a
png file whose name is keyed by the entity and the selected type, while
the simple component variant assigns a null filename to the same raster
download; vector content is keyed and saved as svg in both. -/
theorem claim_C8_code_eval :
    downloadImageSimple "PNGDATA" "RF00001" "rchie" =
      some { mime := "image/png", filename := none } ∧
    downloadImage "PNGDATA" "RF00001" "rchie" =
      some { mime := "image/png", filename := some "RF00001_rchie_structure.png" } ∧
    downloadImage "<svg></svg>" "RF00001" "cons" =
      some { mime := "image/svg+xml", filename := some "RF00001_cons_structure.svg" } ∧
    downloadImageSimple "<svg></svg>" "RF00001" "cons" =
      some { mime := "image/svg+xml", filename := some "RF00001_cons_structure.svg" } := by
  refine ⟨?_, ?_, ?_, ?_⟩ <;> decide

/-- Helper: when the fallback loop reports loaded, the selected type is
one of the candidates it was given. -/
theorem tryLoadGo_selected_mem (env : Env) :
    ∀ (types : List String) (st : WidgetState),
      (tryLoadGo env types st).1.imageStatus = "loaded" →
      (tryLoadGo env types st).1.selectedImageType ∈ types := by
  intro types
  induction types with
  | nil =>
    intro st h
    exact absurd h (by simp [tryLoadGo])
  | cons t ts ih =>
    intro st h
    cases hl : loadImage env t with
    | some r => simp [tryLoadGo, hl]
    | none =>
      simp only [tryLoadGo, hl] at h ⊢
      exact List.mem_cons_of_mem t (ih st h)

/-- Helper: when the fallback loader reports loaded, the selected type is
one of the candidates it was given. -/
theorem tryLoadImage_selected_mem (env : Env) (types : List String) (st : WidgetState)
    (h : (tryLoadImage env types st).1.imageStatus = "loaded") :
    (tryLoadImage env types st).1.selectedImageType ∈ types :=
  tryLoadGo_selected_mem env types _ h

/-- Helper: initialization probes exactly the configured types that
belong to the dropdown list, in order. -/
theorem initializeImages_probed (probe : String → Bool) (env : Env)
    (imageTypes : List String) (st : WidgetState) :
    (initializeImages probe env imageTypes st).2.1 = typesToCheckOf imageTypes := by
  unfold initializeImages
  split <;> rfl

/-- Helper: when initialization lands in loaded, the selected type came
from the probed dropdown candidates. -/
theorem initializeImages_loaded (probe : String → Bool) (env : Env)
    (imageTypes : List String) (st : WidgetState)
    (h : (initializeImages probe env imageTypes st).1.imageStatus = "loaded") :
    (initializeImages probe env imageTypes st).1.selectedImageType ∈
      typesToCheckOf imageTypes := by
  unfold initializeImages at h ⊢
  by_cases hc : 0 < (availableOf probe imageTypes).length
  · rw [if_pos hc] at h ⊢
    have hm := tryLoadImage_selected_mem env (availableOf probe imageTypes)
      { st with availableTypes := availableOf probe imageTypes } h
    exact List.mem_of_mem_filter hm
  · rw [if_neg hc] at h
    simp at h

/-- Claim C9: only types on the fixed eight-type dropdown list are
probed at initialization or offered in the selector; the probed list is
exactly the configured list restricted to the dropdown list in order, so
any other configured type is dropped before probing and can never become
the selected type through initialization. -/
theorem claim_C9 (probe : String → Bool) (env : Env) (familyAcc : String)
    (imageTypes : List String) :
    (∀ t ∈ (mount probe env familyAcc imageTypes).2.1, t ∈ DROPDOWN_IMAGE_TYPES) ∧
    (∀ st : WidgetState, ∀ t ∈ dropdownTypes st, t ∈ DROPDOWN_IMAGE_TYPES) ∧
    (familyAcc ≠ "" → imageTypes ≠ [] →
      (mount probe env familyAcc imageTypes).2.1 =
        imageTypes.filter (fun t => DROPDOWN_IMAGE_TYPES.contains t)) ∧
    ((mount probe env familyAcc imageTypes).1.imageStatus = "loaded" →
      (mount probe env familyAcc imageTypes).1.selectedImageType ∈ DROPDOWN_IMAGE_TYPES) := by
  have hcheck : ∀ t ∈ typesToCheckOf imageTypes, t ∈ DROPDOWN_IMAGE_TYPES := by
    intro t ht
    have := List.of_mem_filter ht
    simpa using this
  refine ⟨?_, ?_, ?_, ?_⟩
  · intro t ht
    unfold mount at ht
    split at ht
    · rw [initializeImages_probed] at ht
      exact hcheck t ht
    · exact absurd ht (by simp)
  · intro st t ht
    have := List.of_mem_filter ht
    simpa using this
  · intro hacc hne
    have hguard : (familyAcc != "" && decide (imageTypes.length > 0)) = true := by
      simp [hacc, List.length_pos, hne]
    unfold mount
    rw [if_pos hguard, initializeImages_probed]
    rfl
  · intro h
    by_cases hg : (familyAcc != "" && decide (imageTypes.length > 0)) = true
    · have hm : mount probe env familyAcc imageTypes =
          initializeImages probe env imageTypes (initialState imageTypes) := by
        unfold mount
        rw [if_pos hg]
      rw [hm] at h ⊢
      exact hcheck _ (initializeImages_loaded probe env imageTypes _ h)
    · have hm : mount probe env familyAcc imageTypes = (initialState imageTypes, [], []) := by
        unfold mount
        rw [if_neg hg]
      rw [hm] at h
      exact absurd h (by simp [initialState])

/-- Witness for claim C9 at a concrete configuration holding a bogus
type: the bogus type is dropped before probing and the loaded selection
is a dropdown type. -/
theorem claim_C9_witness :
    ((mount probeTrueW envSvgW "RF00001" ["bogus", "rscape"]).2.1 =
      ["bogus", "rscape"].filter (fun t => DROPDOWN_IMAGE_TYPES.contains t)) ∧
    (mount probeTrueW envSvgW "RF00001" ["bogus", "rscape"]).1.selectedImageType ∈
      DROPDOWN_IMAGE_TYPES := by
  have h := claim_C9 probeTrueW envSvgW "RF00001" ["bogus", "rscape"]
  exact ⟨h.2.2.1 (by decide) (by decide), h.2.2.2 (by decide)⟩

/-- Claim C10: with an empty configured type list or an absent entity
reference, mounting issues no availability probe and no content fetch,
and the status stays loading, reaching neither loaded nor error. -/
theorem claim_C10 (probe : String → Bool) (env : Env) (familyAcc : String)
    (imageTypes : List String) (h : familyAcc = "" ∨ imageTypes = []) :
    mount probe env familyAcc imageTypes = (initialState imageTypes, [], []) ∧
    (mount probe env familyAcc imageTypes).1.imageStatus = "loading" ∧
    (mount probe env familyAcc imageTypes).1.imageStatus ≠ "loaded" ∧
    (mount probe env familyAcc imageTypes).1.imageStatus ≠ "error" := by
  have hg : (familyAcc != "" && decide (imageTypes.length > 0)) = false := by
    rcases h with h | h <;> simp [h]
  refine ⟨?_, ?_, ?_, ?_⟩ <;> simp [mount, hg, initialState]

/-- Witness for claim C10 at an absent entity reference. -/
theorem claim_C10_witness :
    mount probeTrueW envSvgW "" ["rscape"] = (initialState ["rscape"], [], []) ∧
    (mount probeTrueW envSvgW "" ["rscape"]).1.imageStatus = "loading" ∧
    (mount probeTrueW envSvgW "" ["rscape"]).1.imageStatus ≠ "loaded" ∧
    (mount probeTrueW envSvgW "" ["rscape"]).1.imageStatus ≠ "error" :=
  claim_C10 probeTrueW envSvgW "" ["rscape"] (Or.inl rfl)

end RfamSS
